import Mathlib

/-!
# Verification of the `sourceerror` Go package

Shallow embedding of `src/sourceerror.go` (package `sourceerror` by
M. Watermann).  The package provides one value type, `ErrSource`, which
wraps another Go `error` together with the file, function, line and call
stack of the place where the wrapping happened, plus one constructor
`New` and the methods `Error`, `String`, `primStr` and `Unwrap`.

Modelling decisions:

* A Go `error` interface value is the inductive `GoError`: the nil
  interface (`GoError.nil`), a plain error as made by `errors.New`
  (`GoError.base msg`, whose `Error()` method returns `msg`), or a
  `*ErrSource` (`GoError.src se`).  The struct `ErrSource` and the
  interface type are a mutual inductive because the struct's `err`
  field holds another interface value.
* The `runtime` facility used by `New` (`runtime.Caller(1)` composed
  with `runtime.FuncForPC(pc).Name()`, and `debug.Stack()`) is passed
  explicitly as a `RuntimeEnv` value: `caller = none` models
  `runtime.Caller` returning `ok = false`, and `caller = some (file,
  line, function)` models a successful query.  `stack` is the byte
  slice `debug.Stack()` would return, modelled as a `String` (a nil Go
  byte slice and an empty one both print as the empty string under
  `%s`).
* The two package-level toggles `NODEBUG` and `NOSTACK` are read, never
  written, by the code under `src/`, so they are explicit `Bool`
  parameters of `New`.
* Go `int` is modelled as `Int`.  The only arithmetic performed is
  `eLine -= aLines` under the guard `0 < aLines && eLine >= aLines`,
  whose result lies between `0` and `eLine`, so 64-bit wrap-around can
  never occur on this operation and `Int` is faithful.
* `fmt` verbs: `%s` on a string is the identity, `%d` on an int is the
  decimal rendering, `%v` on an `error` interface value calls its
  `Error()` method (printing `<nil>` for the nil interface), and `%q`
  on a string is Go quoting, modelled here for the printable characters
  actually occurring in file, function and message strings (quote,
  backslash, newline and tab are escaped, other characters are kept).
* `stringPattern` in the Go source is a raw (backquoted) string
  literal, so every `\n` inside it is the two characters backslash and
  `n`, not a newline; the format string `"%q\n%s"` used by `Error()` is
  an interpreted literal, so its `\n` is a real newline.  The embedding
  reproduces this distinction exactly.
-/

/-- The error message text of the `ErrSource` error type
(`StringErrSource` in the Go source). -/
def StringErrSource : String := "error in source"

mutual

/-- A Go `error` interface value as seen by this package: the nil
interface, a plain error carrying a message (`errors.New`), or a
`*ErrSource`. -/
inductive GoError : Type where
  | nil : GoError
  | base : String → GoError
  | src : ErrSource → GoError

/-- The `ErrSource` struct of `src/sourceerror.go`: wrapped error `err`,
`File`, `Function`, `Line` and `Stack` fields, in source order. -/
inductive ErrSource : Type where
  | mk : GoError → String → String → Int → String → ErrSource

end

/-- The private `err` field of `ErrSource`. -/
def ErrSource.err : ErrSource → GoError
  | .mk e _ _ _ _ => e

/-- The public `File` field of `ErrSource`. -/
def ErrSource.File : ErrSource → String
  | .mk _ f _ _ _ => f

/-- The public `Function` field of `ErrSource`. -/
def ErrSource.Function : ErrSource → String
  | .mk _ _ fn _ _ => fn

/-- The public `Line` field of `ErrSource`. -/
def ErrSource.Line : ErrSource → Int
  | .mk _ _ _ l _ => l

/-- The public `Stack` field of `ErrSource`. -/
def ErrSource.Stack : ErrSource → String
  | .mk _ _ _ _ s => s

/-- Go quoting of one printable character, as `%q` (`strconv.Quote`)
renders it: quote, backslash, newline and tab get a backslash escape,
every other printable character stands for itself. -/
def goEscapeChar (c : Char) : String :=
  if c = '"' then "\\\""
  else if c = '\\' then "\\\\"
  else if c = '\n' then "\\n"
  else if c = '\t' then "\\t"
  else String.singleton c

/-- Go `%q` on a string of printable characters: the escaped characters
surrounded by double quotes. -/
def goQuote (s : String) : String :=
  "\"" ++ String.join (s.toList.map goEscapeChar) ++ "\""

/-- `fmt`'s `%v` rendering of a Go `error` interface value: `<nil>` for
the nil interface, the message for a plain error, and the `Error()`
method's result for a `*ErrSource`.  The `src` case inlines the bodies
of `ErrSource.Error` and `ErrSource.primStr` (written below as
stand-alone definitions and tied back to this one by
`GoError.text_src`), so that the recursion is structural in the wrapped
error. -/
def GoError.text : GoError → String
  | .nil => "<nil>"
  | .base msg => msg
  | .src (.mk e f fn l st) =>
      goQuote StringErrSource ++ "\n" ++
      ("Error: " ++ GoError.text e ++ "\\nFile: \"" ++ f ++ ":" ++ toString l ++
       "\"\\nLine: " ++ toString l ++ "\\nFunction: " ++ goQuote fn ++
       "\\nStack: " ++ st)

/-- The `primStr()` helper: `fmt.Sprintf(stringPattern, se.err, se.File,
se.Line, se.Line, se.Function, se.Stack)` where `stringPattern` is the
raw literal
`Error: %v\nFile: "%s:%d"\nLine: %d\nFunction: %q\nStack: %s`
(the `\n`s being literal backslash-n because the Go literal is
backquoted). -/
def ErrSource.primStr : ErrSource → String
  | .mk e f fn l st =>
      "Error: " ++ GoError.text e ++ "\\nFile: \"" ++ f ++ ":" ++ toString l ++
      "\"\\nLine: " ++ toString l ++ "\\nFunction: " ++ goQuote fn ++
      "\\nStack: " ++ st

/-- The `Error()` method: `fmt.Sprintf("%q\n%s", StringErrSource,
se.primStr())` — the quoted label, a real newline, then `primStr`. -/
def ErrSource.Error (se : ErrSource) : String :=
  goQuote StringErrSource ++ "\n" ++ se.primStr

/-- The `String()` method (the `fmt.Stringer` interface): returns
`se.primStr()`. -/
def ErrSource.String (se : ErrSource) : String :=
  se.primStr

/-- The `Unwrap()` method: returns the wrapped error `se.err`. -/
def ErrSource.Unwrap (se : ErrSource) : GoError :=
  se.err

/-- `errors.Unwrap` applied to a `GoError`: calls the `Unwrap()` method
when the dynamic type has one (`*ErrSource` does), and yields the nil
interface otherwise. -/
def GoError.Unwrap : GoError → GoError
  | .src se => se.err
  | .nil => .nil
  | .base _ => .nil

/-- The host-runtime capability consumed by `New`: `caller` is the
result of `runtime.Caller(1)` combined with
`runtime.FuncForPC(pc).Name()` — `none` when `ok` is false, otherwise
`some (file, line, functionName)` — and `stack` is what `debug.Stack()`
would capture. -/
structure RuntimeEnv : Type where
  caller : Option (String × Int × String)
  stack : String

/-- The constructor `New(aErr, aLines)` of `src/sourceerror.go`, with
the two package toggles and the runtime capability passed explicitly:
if `NODEBUG`, return `aErr` unchanged; if the caller query failed,
return `&ErrSource{err: aErr}` (all other fields at their Go zero
values); otherwise adjust the line when `0 < aLines && eLine >= aLines`,
capture the stack unless `NOSTACK`, and return the populated
`&ErrSource`. -/
def New (NODEBUG NOSTACK : Bool) (env : RuntimeEnv) (aErr : GoError)
    (aLines : Int) : GoError :=
  if NODEBUG then
    aErr
  else
    match env.caller with
    | none => .src (.mk aErr "" "" 0 "")
    | some (eFile, eLine0, eFunction) =>
        let eLine := if 0 < aLines ∧ eLine0 ≥ aLines then eLine0 - aLines
                     else eLine0
        let eStack := if NOSTACK then "" else env.stack
        .src (.mk aErr eFile eFunction eLine eStack)

/-- The deprecated `Wrap()` alias: calls `New`. -/
def Wrap (NODEBUG NOSTACK : Bool) (env : RuntimeEnv) (aErr : GoError)
    (aLines : Int) : GoError :=
  New NODEBUG NOSTACK env aErr aLines

/-- The `Line` field of a wrapped result, zero when the value is not an
`ErrSource` (Go's zero `int`). -/
def GoError.lineField : GoError → Int
  | .src se => se.Line
  | _ => 0

/-- The `Stack` field of a wrapped result, empty when the value is not
an `ErrSource`. -/
def GoError.stackField : GoError → String
  | .src se => se.Stack
  | _ => ""

/-- The `File` field of a wrapped result, empty when the value is not an
`ErrSource`. -/
def GoError.fileField : GoError → String
  | .src se => se.File
  | _ => ""

/-- The `Function` field of a wrapped result, empty when the value is
not an `ErrSource`. -/
def GoError.funcField : GoError → String
  | .src se => se.Function
  | _ => ""

/-- Whether a Go error value's dynamic type is `*ErrSource`. -/
def GoError.isSrc : GoError → Bool
  | .src _ => true
  | _ => false

/-- Length of the chain of `ErrSource` wrappers around a value (used to
separate a wrapper from the value it wraps). -/
def GoError.depth : GoError → Nat
  | .nil => 0
  | .base _ => 0
  | .src (.mk e _ _ _ _) => GoError.depth e + 1

/-- Executable form of "the string `s` ends with `post`": `post`'s
characters are a suffix of `s`'s characters. -/
def strEndsWith (s post : String) : Bool :=
  List.isSuffixOf post.toList s.toList

/-- Executable form of "the string `s` begins with `p`": `p`'s
characters are a prefix of `s`'s characters. -/
def strStartsWith (s p : String) : Bool :=
  List.isPrefixOf p.toList s.toList

/-- `fmt`'s `%v` on a `*ErrSource` value is exactly the `Error()`
method: `GoError.text` on a wrapper agrees with `ErrSource.Error`. -/
theorem GoError.text_src (se : ErrSource) :
    GoError.text (GoError.src se) = se.Error := by
  cases se
  rfl

/-- C1 counterexample: with caller `("main.go", 42, "main.main")`, stack
`"gstack"` and cause `Error("disk full")` at skip 0, the canonical
message produced by `Error()` does NOT end with the text `disk full`:
`primStr` renders the cause right after the label, and the message ends
with the stack.  This refutes the claimed field order (cause last) and
the claimed ending. -/
theorem C1_counterexample :
    strEndsWith
      (GoError.text (New false false ⟨some ("main.go", 42, "main.main"), "gstack"⟩
        (GoError.base "disk full") 0))
      "disk full" = false := by decide

/-- C1 (amended): for every constructed `ErrSource`, the canonical
message `Error()` renders its fields in the exact order label, then
cause, then file, then line, then function, then stack; in particular,
for cause `Error("disk full")` and skip 0 the message begins with the
quoted fixed label text and ends with the stack text. -/
theorem C1_field_order :
    (∀ se : ErrSource,
      se.Error =
        goQuote StringErrSource ++ "\n" ++
        ("Error: " ++ GoError.text se.err ++
         "\\nFile: \"" ++ se.File ++ ":" ++ toString se.Line ++
         "\"\\nLine: " ++ toString se.Line ++
         "\\nFunction: " ++ goQuote se.Function ++
         "\\nStack: " ++ se.Stack)) ∧
    strStartsWith
      (GoError.text (New false false ⟨some ("main.go", 42, "main.main"), "gstack"⟩
        (GoError.base "disk full") 0))
      (goQuote StringErrSource) = true ∧
    strEndsWith
      (GoError.text (New false false ⟨some ("main.go", 42, "main.main"), "gstack"⟩
        (GoError.base "disk full") 0))
      ("\\nStack: " ++ "gstack") = true := by
  refine ⟨fun se => ?_, by decide, by decide⟩
  cases se
  rfl

/-- C2: for every cause (nil, plain, or an `ErrSource` chain), every
skip `n`, every runtime environment and either stack toggle, when
`NODEBUG` is false `Unwrap (New cause n)` returns exactly the cause:
the wrapped cause is preserved losslessly, on the degraded path too. -/
theorem C2_unwrap_roundtrip (b : Bool) (env : RuntimeEnv) (cause : GoError) (n : Int) :
    (New false b env cause n).Unwrap = cause := by
  rcases env with ⟨c, st⟩
  rcases c with _ | ⟨f, L, fn⟩ <;> rfl

/-- C3: when `NODEBUG` is true, `New cause n` returns the value `cause`
itself, with no wrapping and no metadata capture, for every cause,
every `n`, every runtime environment and either stack toggle. -/
theorem C3_nodebug_identity (b : Bool) (env : RuntimeEnv) (cause : GoError) (n : Int) :
    New true b env cause n = cause := rfl

/-- C4: with `NODEBUG` false and caller info `(f, L, fn)` available, the
`Line` field reported by `New cause n` equals `L - n` when
`0 < n ≤ L`, and equals `L` unchanged when `n ≤ 0` or `n > L`. -/
theorem C4_line_adjustment (f fn st : String) (L n : Int) (b : Bool) (cause : GoError) :
    (0 < n → n ≤ L →
      (New false b ⟨some (f, L, fn), st⟩ cause n).lineField = L - n) ∧
    (n ≤ 0 ∨ L < n →
      (New false b ⟨some (f, L, fn), st⟩ cause n).lineField = L) := by
  have e1 : (New false b ⟨some (f, L, fn), st⟩ cause n).lineField
      = if 0 < n ∧ L ≥ n then L - n else L := rfl
  constructor
  · intro h1 h2
    rw [e1, if_pos ⟨h1, h2⟩]
  · intro h
    rw [e1, if_neg (by rintro ⟨hp, hq⟩; omega)]

/-- C4 witness: detected line 42 with skip 2 reports line 40. -/
theorem C4_line_adjustment_witness :
    (0 : Int) < 2 ∧ (2 : Int) ≤ 42 ∧
      (New false false ⟨some ("a.go", 42, "f"), "s"⟩ (GoError.base "e") 2).lineField = 40 :=
  ⟨by decide, by decide,
    (C4_line_adjustment "a.go" "f" "s" 42 2 false (GoError.base "e")).1 (by decide) (by decide)⟩

/-- C5 counterexample: with caller info available at detected line 5 and
skip 5, the reported `Line` field is `5 - 5 = 0`, which is not
positive — refuting the claim that the adjustment never produces a zero
line number. -/
theorem C5_counterexample :
    ¬ 0 < (New false false ⟨some ("a.go", 5, "f"), "s"⟩ (GoError.base "e") 5).lineField := by
  decide

/-- C5 (amended): with caller info available and a positive detected
line `L`, the `Line` field after adjustment is never negative, and it
is positive whenever the requested skip differs from `L`; only the
boundary skip `n = L` yields the non-positive value zero. -/
theorem C5_line_nonneg (f fn st : String) (L n : Int) (b : Bool) (cause : GoError)
    (hL : 0 < L) :
    0 ≤ (New false b ⟨some (f, L, fn), st⟩ cause n).lineField ∧
    (n ≠ L → 0 < (New false b ⟨some (f, L, fn), st⟩ cause n).lineField) := by
  have e1 : (New false b ⟨some (f, L, fn), st⟩ cause n).lineField
      = if 0 < n ∧ L ≥ n then L - n else L := rfl
  constructor
  · rw [e1]; split_ifs with h <;> omega
  · intro hne; rw [e1]; split_ifs with h <;> omega

/-- C5 witness: detected line 7 with skip 3 reports the positive line 4. -/
theorem C5_line_nonneg_witness :
    (0 : Int) < 7 ∧
    (0 ≤ (New false false ⟨some ("a.go", 7, "f"), "s"⟩ (GoError.base "e") 3).lineField ∧
     ((3 : Int) ≠ 7 →
       0 < (New false false ⟨some ("a.go", 7, "f"), "s"⟩ (GoError.base "e") 3).lineField)) :=
  ⟨by decide, C5_line_nonneg "a.go" "f" "s" 7 3 false (GoError.base "e") (by decide)⟩

/-- C6: when `NODEBUG` is false and the runtime's caller query fails,
`New cause n` still returns an `ErrSource` — never the cause itself —
carrying the cause with empty `File`, `Function` and `Stack` and zero
`Line`, for every cause, skip and stack toggle. -/
theorem C6_degraded_capture (b : Bool) (st : String) (cause : GoError) (n : Int) :
    New false b ⟨none, st⟩ cause n = GoError.src (ErrSource.mk cause "" "" 0 "") ∧
    New false b ⟨none, st⟩ cause n ≠ cause := by
  refine ⟨rfl, fun h => ?_⟩
  have hd := congrArg GoError.depth h
  simp [GoError.depth, New] at hd

/-- C7: when `NOSTACK` is true, `NODEBUG` is false and caller info
`(f, L, fn)` is available, the `ErrSource` returned by `New cause n`
has an empty `Stack` field while `File`, `Function` and `Line` are
populated from the caller query (with the usual line adjustment). -/
theorem C7_nostack (f fn st : String) (L n : Int) (cause : GoError) :
    (New false true ⟨some (f, L, fn), st⟩ cause n).stackField = "" ∧
    (New false true ⟨some (f, L, fn), st⟩ cause n).fileField = f ∧
    (New false true ⟨some (f, L, fn), st⟩ cause n).funcField = fn ∧
    (New false true ⟨some (f, L, fn), st⟩ cause n).lineField =
      (if 0 < n ∧ n ≤ L then L - n else L) :=
  ⟨rfl, rfl, rfl, rfl⟩

/-- C8: `New` applied to the nil error with skip 0 never fails: with
`NODEBUG` false it returns a value whose dynamic type is `*ErrSource`
(hence non-nil) and whose `Unwrap()` yields the nil sentinel, in every
runtime environment and under either stack toggle. -/
theorem C8_nil_cause (b : Bool) (env : RuntimeEnv) :
    (New false b env GoError.nil 0).isSrc = true ∧
    New false b env GoError.nil 0 ≠ GoError.nil ∧
    (New false b env GoError.nil 0).Unwrap = GoError.nil := by
  rcases env with ⟨c, st⟩
  rcases c with _ | ⟨f, L, fn⟩ <;>
    exact ⟨rfl, fun h => by have h2 := congrArg GoError.isSrc h; simp [GoError.isSrc, New] at h2, rfl⟩

/-- C9: for every `ErrSource` value, `String()` equals the shared
rendering `primStr()`, and `Error()` equals the fixed quoted label
followed by a newline followed by exactly the rendering `String()`
produces — both views come from the one shared routine. -/
theorem C9_shared_rendering (se : ErrSource) :
    se.String = se.primStr ∧
    se.Error = "\"error in source\"" ++ "\n" ++ se.String :=
  ⟨rfl, rfl⟩

/-- C10: `New` accepts any integer skip, negative ones included: for
every skip `n ≤ 0` the result is identical to the result for skip 0 and
the detected line number `L` is left completely unchanged. -/
theorem C10_nonpositive_skip (f fn st : String) (L n : Int) (b : Bool) (cause : GoError)
    (h : n ≤ 0) :
    New false b ⟨some (f, L, fn), st⟩ cause n =
      New false b ⟨some (f, L, fn), st⟩ cause 0 ∧
    (New false b ⟨some (f, L, fn), st⟩ cause n).lineField = L := by
  have e1 : New false b ⟨some (f, L, fn), st⟩ cause n =
      GoError.src (ErrSource.mk cause f fn (if 0 < n ∧ L ≥ n then L - n else L)
        (if b = true then "" else st)) := rfl
  have e2 : New false b ⟨some (f, L, fn), st⟩ cause 0 =
      GoError.src (ErrSource.mk cause f fn L (if b = true then "" else st)) := rfl
  have hcond : ¬(0 < n ∧ L ≥ n) := by rintro ⟨hp, hq⟩; omega
  constructor
  · rw [e1, e2, if_neg hcond]
  · have e3 : (New false b ⟨some (f, L, fn), st⟩ cause n).lineField
        = if 0 < n ∧ L ≥ n then L - n else L := rfl
    rw [e3, if_neg hcond]

/-- C10 witness: skip -3 at detected line 42 behaves exactly like skip 0
and reports line 42. -/
theorem C10_nonpositive_skip_witness :
    (-3 : Int) ≤ 0 ∧
    (New false false ⟨some ("a.go", 42, "f"), "s"⟩ (GoError.base "e") (-3) =
       New false false ⟨some ("a.go", 42, "f"), "s"⟩ (GoError.base "e") 0 ∧
     (New false false ⟨some ("a.go", 42, "f"), "s"⟩ (GoError.base "e") (-3)).lineField = 42) :=
  ⟨by decide, C10_nonpositive_skip "a.go" "f" "s" 42 (-3) false (GoError.base "e") (by decide)⟩
